/-
Shallow embedding of the GigNova job pipeline
(backend/gignova: agents/negotiation.py, agents/matching.py, agents/qa.py,
agents/payment.py, blockchain/local_manager.py, orchestrator_mcp.py,
models/base.py), together with theorems settling the specification claims.

Numeric values that are Python floats in the source are modelled as exact
rationals (ℚ); external collaborators (embedding service, storage, the
ledger's uuid generator) are modelled as explicit oracle parameters or
deterministic counters, as noted at each definition.
-/
import Mathlib

set_option autoImplicit false

namespace GigNova

/-- models/base.py `JobStatus`. -/
inductive JobStatus where
  | posted
  | matched
  | negotiating
  | active
  | in_qa
  | completed
  | disputed
  | cancelled
  deriving DecidableEq, Repr

/-- Position of a status in the ordered forward chain
`Posted → Matched → Negotiating → Active → InQA → Completed`
used by the spec's monotonicity invariant; the side exits get the
largest ranks so that they are never "backward" targets. -/
def statusRank : JobStatus → Nat
  | .posted => 0
  | .matched => 1
  | .negotiating => 2
  | .active => 3
  | .in_qa => 4
  | .completed => 5
  | .disputed => 6
  | .cancelled => 7

/-- models/base.py `AgentConfig` (the dataclass defaults). -/
structure AgentConfig where
  confidence_threshold : ℚ := 0.85
  negotiation_rounds : Nat := 5
  qa_similarity_threshold : ℚ := 0.7
  learning_rate : ℚ := 0.01
  memory_window : Nat := 100
  deriving DecidableEq, Repr

/-- models/base.py `JobPost` (budget validation is a pydantic validator;
here the field values are carried as given). -/
structure JobPost where
  title : String
  description : String
  skills : List String
  budget_min : ℚ
  budget_max : ℚ
  deadline_days : Nat
  client_id : String
  requirements : List String := []
  deriving DecidableEq, Repr

/-- The slice of a stored freelancer record read by the orchestrator:
`self.freelancers.get(id, {}).get('hourly_rate', job_post.budget_max)`;
the rate key may be absent. -/
structure Freelancer where
  hourly_rate : Option ℚ := none
  deriving DecidableEq, Repr

/-- models/base.py `JobMatch`. -/
structure JobMatch where
  job_id : String
  freelancer_id : String
  confidence_score : ℚ
  match_reasons : List String
  deriving DecidableEq, Repr

/-- One entry of the similarity-search collaborator's result list:
a score plus the `freelancer_id` key of its metadata (absent when the
metadata dict lacks the key). -/
structure SearchResult where
  score : ℚ
  metadata_freelancer_id : Option String := none
  deriving DecidableEq, Repr

/-- The similarity-search collaborator's response dict: an `error` key
(when present the agent bails out) and a `results` list. -/
structure SearchResponse where
  error : Option String := none
  results : List SearchResult := []
  deriving DecidableEq, Repr

/-- The dict returned by `NegotiationAgent.negotiate`. -/
structure NegotiationOutcome where
  agreed_rate : Option ℚ
  rounds : Nat
  success : Bool
  deriving DecidableEq, Repr

/-- models/base.py `QAResult`: a pydantic model whose declared fields —
all required — include `deliverable_hash`.  (The constructor calls in
agents/qa.py never supply that field; see `QAResult.validate`.) -/
structure QAResult where
  job_id : String
  deliverable_hash : String
  similarity_score : ℚ
  passed : Bool
  feedback : String
  deriving DecidableEq, Repr

/-- The keyword arguments of a pydantic `QAResult(...)` constructor call;
a field the call does not pass is `none`.  The `deliverable_id=` keyword
actually written at agents/qa.py lines 75, 107 and 142 matches no declared
field, so under pydantic's default config it is ignored and contributes
nothing here. -/
structure QAResultKwargs where
  job_id : Option String := none
  deliverable_hash : Option String := none
  similarity_score : Option ℚ := none
  passed : Option Bool := none
  feedback : Option String := none
  deriving DecidableEq, Repr

/-- Pydantic model validation for `QAResult` (setup.py pins
`pydantic>=2.5.0`): every declared field is required, and a call that
omits one raises `ValidationError`. -/
def QAResult.validate (kw : QAResultKwargs) : Except String QAResult :=
  match kw.job_id, kw.deliverable_hash, kw.similarity_score, kw.passed,
      kw.feedback with
  | some j, some dh, some sc, some p, some fb =>
    .ok { job_id := j, deliverable_hash := dh, similarity_score := sc,
          passed := p, feedback := fb }
  | _, _, _, _, _ => .error "ValidationError: Field required"

/-- agents/negotiation.py lines 40-47: one round of the bracket loop.
`midpoint = (offer + ask) / 2`; the offer moves 70% of the way toward the
midpoint and the ask concedes 30% of the way. -/
def negotiationStep (offer ask : ℚ) : ℚ × ℚ :=
  let midpoint := (offer + ask) / 2
  (offer + (midpoint - offer) * 0.7, ask - (ask - midpoint) * 0.3)

/-- agents/negotiation.py lines 39-47: the `while` loop, with the remaining
round budget (`negotiation_rounds - rounds`) as structural fuel.  Returns the
final offer, final ask, and the number of rounds executed. -/
def negotiationLoop (offer ask : ℚ) : Nat → ℚ × ℚ × Nat
  | 0 => (offer, ask, 0)
  | fuel + 1 =>
    if |offer - ask| / ask > 0.15 then
      let p := negotiationStep offer ask
      let r := negotiationLoop p.1 p.2 fuel
      (r.1, r.2.1, r.2.2 + 1)
    else
      (offer, ask, 0)

/-- agents/negotiation.py `NegotiationAgent.negotiate`. -/
def NegotiationAgent.negotiate (cfg : AgentConfig) (client_budget : ℚ × ℚ)
    (freelancer_rate : ℚ) : NegotiationOutcome :=
  let client_max := client_budget.2
  if freelancer_rate ≤ client_max then
    { agreed_rate := some freelancer_rate, rounds := 0, success := true }
  else
    let r := negotiationLoop client_max freelancer_rate cfg.negotiation_rounds
    if |r.1 - r.2.1| / r.2.1 ≤ 0.15 then
      { agreed_rate := some ((r.1 + r.2.1) / 2), rounds := r.2.2, success := true }
    else
      { agreed_rate := none, rounds := r.2.2, success := false }

/-- agents/matching.py lines 54-70: keep a search result only when its
metadata carries a `freelancer_id` and its score meets the confidence
threshold (`score >= self.config.confidence_threshold`).  The `job_id` of a
produced match is a fresh uuid in the source, modelled by a fixed tag. -/
def matchOfResult (cfg : AgentConfig) (r : SearchResult) : Option JobMatch :=
  match r.metadata_freelancer_id with
  | none => none
  | some fid =>
    if cfg.confidence_threshold ≤ r.score then
      some { job_id := "uuid", freelancer_id := fid, confidence_score := r.score,
             match_reasons := ["Skill match: " ++ toString r.score] }
    else
      none

/-- agents/matching.py `MatchingAgent.find_matches`, as a function of the
similarity-search collaborator's response (an `error` key aborts with `[]`;
a search exception is the same observable outcome). -/
def MatchingAgent.find_matches (cfg : AgentConfig) (resp : SearchResponse) :
    List JobMatch :=
  match resp.error with
  | some _ => []
  | none => resp.results.filterMap (matchOfResult cfg)

/-- blockchain/local_manager.py escrow entry `status` field
(`"active"` / `"released"`). -/
inductive EscrowStatus where
  | active
  | released
  deriving DecidableEq, Repr

/-- blockchain/local_manager.py escrow entry (lines 173-181); the
`created_at` / `released_at` wall-clock timestamps are not modelled. -/
structure Escrow where
  client_id : String
  freelancer_id : String
  amount : ℚ
  deadline : Nat
  status : EscrowStatus
  tx_hash : String
  deriving DecidableEq, Repr

/-- blockchain/local_manager.py transaction entry (lines 184-191 and
245-252); the wall-clock timestamp is not modelled. -/
structure LedgerTx where
  type : String
  contract_address : String
  status : String
  gas_used : Nat
  gas_price : Nat
  deriving DecidableEq, Repr

/-- The persistent state of `LocalBlockchainManager`: the two JSON files
(escrows keyed by contract address, transactions keyed by tx hash) plus a
counter modelling the uuid supply behind `_generate_address` /
`_generate_tx_hash` (each draw is fresh). -/
structure MgrState where
  escrows : List (String × Escrow) := []
  transactions : List (String × LedgerTx) := []
  nextId : Nat := 0
  deriving DecidableEq, Repr

/-- `LocalBlockchainManager._generate_address`, deterministic stand-in for
`uuid4().hex[:40]`. -/
def mkAddress (n : Nat) : String := "0x" ++ toString n

/-- `LocalBlockchainManager._generate_tx_hash`, deterministic stand-in for
`uuid4().hex`. -/
def mkTxHash (n : Nat) : String := "0xtx" ++ toString n

/-- Result dict of `LocalBlockchainManager.create_escrow` (note: it carries
no `escrow_id` key, so readers of that key observe `None`). -/
structure CreateEscrowResult where
  success : Bool
  contract_address : Option String
  transaction_hash : Option String
  error : Option String := none
  deriving DecidableEq, Repr

/-- Result dict of `LocalBlockchainManager.release_payment`. -/
structure MgrReleaseResult where
  success : Bool
  transaction_hash : Option String := none
  error : Option String := none
  deriving DecidableEq, Repr

/-- blockchain/local_manager.py `LocalBlockchainManager.create_escrow`
(lines 146-209): always appends a brand-new escrow entry under a freshly
generated contract address, plus a confirmed `create_escrow` transaction.
The `except` failure branch fires only on file-IO errors, which the state
model cannot raise. -/
def LocalBlockchainManager.create_escrow (client_id freelancer_id : String)
    (amount : ℚ) (deadline : Nat) (s : MgrState) :
    CreateEscrowResult × MgrState :=
  let contract_address := mkAddress s.nextId
  let tx_hash := mkTxHash s.nextId
  let esc : Escrow :=
    { client_id := client_id, freelancer_id := freelancer_id, amount := amount,
      deadline := deadline, status := .active, tx_hash := tx_hash }
  let tx : LedgerTx :=
    { type := "create_escrow", contract_address := contract_address,
      status := "confirmed", gas_used := 150000, gas_price := 20000000000 }
  ({ success := true, contract_address := some contract_address,
     transaction_hash := some tx_hash },
   { escrows := s.escrows ++ [(contract_address, esc)],
     transactions := s.transactions ++ [(tx_hash, tx)],
     nextId := s.nextId + 1 })

/-- In-place status update of one escrow entry
(`escrow["status"] = "released"` on the loaded dict). -/
def setReleased (key : String) (l : List (String × Escrow)) :
    List (String × Escrow) :=
  l.map fun p => if p.1 = key then (p.1, { p.2 with status := .released }) else p

/-- blockchain/local_manager.py `LocalBlockchainManager.release_payment`
(lines 211-270).  A missing key (including the Python `None` passed through
`escrow_id`) answers "not found"; a non-active escrow answers "not active";
otherwise the escrow is marked released and a confirmed `release_payment`
transaction is appended. -/
def LocalBlockchainManager.release_payment (escrow_id : Option String)
    (s : MgrState) : MgrReleaseResult × MgrState :=
  match escrow_id with
  | none =>
    ({ success := false, error := some "Escrow None not found" }, s)
  | some key =>
    match s.escrows.lookup key with
    | none =>
      ({ success := false, error := some ("Escrow " ++ key ++ " not found") }, s)
    | some esc =>
      if esc.status ≠ .active then
        ({ success := false,
           error := some ("Escrow " ++ key ++ " is not active") }, s)
      else
        let tx_hash := mkTxHash s.nextId
        let tx : LedgerTx :=
          { type := "release_payment", contract_address := key,
            status := "confirmed", gas_used := 100000,
            gas_price := 20000000000 }
        ({ success := true, transaction_hash := some tx_hash },
         { escrows := setReleased key s.escrows,
           transactions := s.transactions ++ [(tx_hash, tx)],
           nextId := s.nextId + 1 })

/-- The `job_data` dict handed to `PaymentAgent.create_escrow` by the
orchestrator (`deadline` key absent there, defaulted to 30 days in
seconds by the agent). -/
structure EscrowJobData where
  job_id : String
  client : String
  freelancer : String
  amount : ℚ
  deadline : Option Nat := none
  deriving DecidableEq, Repr

/-- agents/payment.py `PaymentAgent.create_escrow` (lines 24-92): forwards
to the blockchain manager with the 30-day default deadline and returns the
manager's result dict unchanged. -/
def PaymentAgent.create_escrow (jd : EscrowJobData) (s : MgrState) :
    CreateEscrowResult × MgrState :=
  LocalBlockchainManager.create_escrow jd.client jd.freelancer jd.amount
    (jd.deadline.getD (30 * 24 * 60 * 60)) s

/-- Result dict of `PaymentAgent.release_payment`. -/
structure AgentReleaseResult where
  success : Bool
  message : String
  transaction_hash : Option String
  deriving DecidableEq, Repr

/-- Python `a or b` on two optional strings (an empty string is falsy). -/
def pyOr (a b : Option String) : Option String :=
  match a with
  | none => b
  | some sa => if sa = "" then b else some sa

/-- agents/payment.py `PaymentAgent.release_payment` (lines 94-200).  The
third component of the result records whether the ledger collaborator
(`blockchain_manager.release_payment`) was invoked: it is skipped only on
the `qa_passed == False` branch. -/
def PaymentAgent.release_payment (_job_id : String)
    (contract_address escrow_id : Option String) (qa_passed : Bool)
    (s : MgrState) : AgentReleaseResult × MgrState × Bool :=
  if ¬qa_passed then
    ({ success := false, message := "Payment held due to QA failure",
       transaction_hash := none }, s, false)
  else
    let r := LocalBlockchainManager.release_payment
      (pyOr contract_address escrow_id) s
    if r.1.success then
      ({ success := true, message := "Payment released successfully",
         transaction_hash := r.1.transaction_hash }, r.2, true)
    else
      ({ success := false,
         message := "Payment release failed: " ++ (r.1.error.getD "Unknown error"),
         transaction_hash := none }, r.2, true)

/-- Status of the escrow an agent-level release would address
(`contract_address or escrow_id`) in a given ledger state. -/
def escrowStatusOf (key : Option String) (s : MgrState) : Option EscrowStatus :=
  (key.bind fun k => s.escrows.lookup k).map (·.status)

/-- `n` repeated invocations of `PaymentAgent.release_payment` with
`qa_passed = True` against the same job, threading the ledger state and
counting the successful releases. -/
def releaseRepeat (job_id : String) (contract_address escrow_id : Option String) :
    Nat → MgrState → Nat × MgrState
  | 0, s => (0, s)
  | n + 1, s =>
    let r := PaymentAgent.release_payment job_id contract_address escrow_id true s
    let rest := releaseRepeat job_id contract_address escrow_id n r.2.1
    ((if r.1.success then 1 else 0) + rest.1, rest.2)

/-- The storage collaborator's state: stored artifacts keyed by artifact id
(`store`/`retrieve` contract of §6). -/
abbrev Storage := List (String × String)

/-- Result dict of the storage manager's `retrieve_file`. -/
structure RetrieveResult where
  success : Bool
  data : Option String
  deriving DecidableEq, Repr

/-- The storage collaborator's `retrieve_file`, as read in agents/qa.py
line 42. -/
def retrieve_file (st : Storage) (artifact_id : String) : RetrieveResult :=
  match st.lookup artifact_id with
  | some d => { success := true, data := some d }
  | none => { success := false, data := none }

/-- The feedback string of a computed validation
(`f"Similarity score: {similarity:.2f}. {...}."`, with the exact rational
printed instead of the 2-decimal rendering). -/
def qaFeedback (similarity : ℚ) (passed : Bool) : String :=
  "Similarity score: " ++ toString similarity ++ ". " ++
    (if passed then "Approved" else "Needs revision") ++ "."

/-- agents/qa.py `QAAgent.validate_deliverable` (lines 25-148).  `sim` is
the external embedding collaborator reduced to the cosine similarity it
induces on two texts.  The `try` body either takes the missing/empty
(falsy) deliverable branch (lines 107-113) or computes
`passed = similarity >= qa_similarity_threshold` (line 72) — but every
`QAResult(...)` call passes `deliverable_id=` and omits the required
`deliverable_hash`, so each construction raises `ValidationError`.  The
`except` handler (lines 128-148) catches the body's exception and then
constructs a `QAResult` the same faulty way at line 142; that second
exception propagates, so the function raises on every path (modelled as
`Except.error`) and never returns a result. -/
def QAAgent.validate_deliverable (cfg : AgentConfig)
    (sim : String → String → ℚ) (st : Storage)
    (job_id requirements deliverable_id : String) : Except String QAResult :=
  let r := retrieve_file st deliverable_id
  let deliverable_data := if r.success then r.data else none
  let body : Except String QAResult :=
    match deliverable_data with
    | none =>
      QAResult.validate
        { job_id := some job_id, similarity_score := some 0,
          passed := some false,
          feedback := some "Could not retrieve deliverable for validation." }
    | some text =>
      if text = "" then
        QAResult.validate
          { job_id := some job_id, similarity_score := some 0,
            passed := some false,
            feedback := some "Could not retrieve deliverable for validation." }
      else
        let similarity := sim requirements text
        let passed := decide (cfg.qa_similarity_threshold ≤ similarity)
        QAResult.validate
          { job_id := some job_id, similarity_score := some similarity,
            passed := some passed,
            feedback := some (qaFeedback similarity passed) }
  match body with
  | .ok result => .ok result
  | .error e =>
    QAResult.validate
      { job_id := some job_id, similarity_score := some 0,
        passed := some false,
        feedback := some ("Validation failed: " ++ e) }

/-- One element of the `recent_outcomes` list consumed by
`MatchingAgent.evolve_threshold` (only its `successful` flag is read). -/
structure MatchOutcome where
  successful : Bool
  deriving DecidableEq, Repr

/-- agents/matching.py `MatchingAgent.evolve_threshold` (lines 92-125).
Besides the updated config, the result carries the event types logged to
analytics and the value returned to the caller (always Python `None`,
hence no reason string on any path; in particular the empty-outcome early
return at line 94 logs nothing at all). -/
def MatchingAgent.evolve_threshold (cfg : AgentConfig)
    (recent_outcomes : List MatchOutcome) :
    AgentConfig × List String × Option String :=
  if recent_outcomes.isEmpty then
    (cfg, [], none)
  else
    let success_rate : ℚ :=
      (recent_outcomes.countP (·.successful) : ℚ) / (recent_outcomes.length : ℚ)
    let t1 :=
      if success_rate < 0.6 then
        min 0.95 (cfg.confidence_threshold + 0.05)
      else if success_rate > 0.8 then
        max 0.5 (cfg.confidence_threshold - 0.02)
      else
        cfg.confidence_threshold
    let t2 := max 0.5 (min 0.95 t1)
    ({ cfg with confidence_threshold := t2 }, ["agent_evolution"], none)

/-- One `qa_validation_completed` analytics event as consumed by
`QAAgent.evolve`: similarity score, agent verdict, and the optional human
feedback (`human_feedback.approved` when the key is present). -/
structure QAEvent where
  similarity_score : ℚ := 0
  passed : Bool := false
  human_feedback : Option Bool := none
  deriving DecidableEq, Repr

/-- A false positive in `QAAgent.evolve`: agent approved, human did not. -/
def isFalsePositive (e : QAEvent) : Bool :=
  match e.human_feedback with
  | some approved => e.passed && !approved
  | none => false

/-- A false negative in `QAAgent.evolve`: human approved, agent did not. -/
def isFalseNegative (e : QAEvent) : Bool :=
  match e.human_feedback with
  | some approved => !e.passed && approved
  | none => false

/-- The evolution outcome dict of `QAAgent.evolve` restricted to the keys
the claims read (`evolved` flag and `reason` string when present). -/
structure EvolveReport where
  evolved : Bool
  reason : Option String
  deriving DecidableEq, Repr

/-- agents/qa.py lines 204-212: the adjusted threshold — ±0.05 against the
dominant error type once it exceeds 5 samples, clamped to [0.5, 0.95]. -/
def qaNewThreshold (old_threshold : ℚ)
    (false_positives false_negatives : Nat) : ℚ :=
  if false_positives > false_negatives ∧ false_positives > 5 then
    min 0.95 (old_threshold + 0.05)
  else if false_negatives > false_positives ∧ false_negatives > 5 then
    max 0.5 (old_threshold - 0.05)
  else
    old_threshold

/-- agents/qa.py `QAAgent.evolve` (lines 150-244): with no recent
`qa_validation_completed` events it returns unchanged with an explanatory
reason; otherwise it applies `qaNewThreshold` to the false-positive /
false-negative counts of the window. -/
def QAAgent.evolve (cfg : AgentConfig) (qa_events : List QAEvent) :
    AgentConfig × EvolveReport :=
  if qa_events.isEmpty then
    (cfg, { evolved := false,
            reason := some "No QA validation data available for evolution" })
  else
    let new_threshold := qaNewThreshold cfg.qa_similarity_threshold
      (qa_events.countP (isFalsePositive ·))
      (qa_events.countP (isFalseNegative ·))
    if new_threshold ≠ cfg.qa_similarity_threshold then
      ({ cfg with qa_similarity_threshold := new_threshold },
       { evolved := true, reason := none })
    else
      (cfg, { evolved := false,
              reason := some "No evolution needed based on current metrics" })

/-- The per-job record stored in `GigNovaOrchestrator.jobs`: the dict
built at orchestrator_mcp.py lines 57-61 (the wall-clock `created_at` is
not modelled).  The extensions at lines 143-150 and 214-218 are
unreachable (see `GigNovaOrchestrator.process_job_posting` and
`GigNovaOrchestrator.submit_deliverable`), so no further keys ever
appear. -/
structure OrchJob where
  post : JobPost
  status : JobStatus
  deriving DecidableEq, Repr

/-- The orchestrator's in-memory state: the mutable attributes set in
`__init__` that its operations read (`jobs`, `freelancers`), the shared
agent config, and a counter modelling the uuid supply for job ids. -/
structure OrchState where
  cfg : AgentConfig := {}
  jobs : List (String × OrchJob) := []
  freelancers : List (String × Freelancer) := []
  nextJobId : Nat := 0
  deriving DecidableEq, Repr

/-- Deterministic stand-in for the `uuid4()` job id. -/
def mkJobId (n : Nat) : String := "job-" ++ toString n

/-- The dict returned by `GigNovaOrchestrator.process_job_posting`; only
the `no_matches` return (lines 78-82) and the exception-handler return
(lines 183-187) are reachable. -/
structure PostOutcome where
  job_id : String
  status : String
  message : Option String := none
  deriving DecidableEq, Repr

/-- orchestrator_mcp.py `GigNovaOrchestrator.process_job_posting`
(lines 40-187), as a function of the similarity-search collaborator's
response.  The job is stored as `Posted` (lines 57-61).  With no matches
the `no_matches` dict is returned.  With a best match, line 86 subscripts
the pydantic `JobMatch` object (`best_match["freelancer_id"]`), which
raises `TypeError` (here the rendering of the Python message without its
quotes); the handler at line 172 returns the `error` dict.  The
negotiation, escrow-creation and `Active` status update (lines 97-170)
are therefore unreachable, and the job stays `Posted` on every path. -/
def GigNovaOrchestrator.process_job_posting (post : JobPost)
    (search : SearchResponse) (s : OrchState) : PostOutcome × OrchState :=
  let job_id := mkJobId s.nextJobId
  let s0 : OrchState :=
    { s with jobs := (job_id, { post := post, status := .posted }) :: s.jobs,
             nextJobId := s.nextJobId + 1 }
  match MatchingAgent.find_matches s.cfg search with
  | [] =>
    ({ job_id := job_id, status := "no_matches",
       message := some "No suitable freelancers found" }, s0)
  | _ :: _ =>
    ({ job_id := job_id, status := "error",
       message := some "TypeError: JobMatch object is not subscriptable" }, s0)

/-- The dict returned by `GigNovaOrchestrator.submit_deliverable`; only
the exception-handler return (lines 281-284) is reachable. -/
structure SubmitOutcome where
  job_id : String
  error : Option String := none
  deriving DecidableEq, Repr

/-- orchestrator_mcp.py `GigNovaOrchestrator.submit_deliverable`
(lines 189-284).  An unknown job id raises `ValueError("Job not found")`.
For a known job, line 207 reads `self.qa_agent.ipfs_manager` — an
attribute `QAAgent` does not have (`BaseAgent.__init__` sets only
`vector_manager`) — raising `AttributeError` (rendered without the Python
quotes) before anything is stored or validated.  Either exception is
caught at line 270 and returned as the error dict, so the storage,
validation, status update (lines 214-218) and payment release are
unreachable and the state is returned unchanged on every path. -/
def GigNovaOrchestrator.submit_deliverable (job_id : String)
    (_deliverable_data : String) (s : OrchState) : SubmitOutcome × OrchState :=
  match s.jobs.lookup job_id with
  | none => ({ job_id := job_id, error := some "Job not found" }, s)
  | some _ =>
    ({ job_id := job_id,
       error := some
         "AttributeError: QAAgent object has no attribute ipfs_manager" }, s)

/-- The recorded status of a job in an orchestrator state. -/
def statusAt (s : OrchState) (job_id : String) : Option JobStatus :=
  (s.jobs.lookup job_id).map (·.status)

/-- Any number of `submit_deliverable` calls, in order, each given as a
(job id, deliverable data) pair. -/
def submitSequence (subs : List (String × String)) (s : OrchState) :
    OrchState :=
  subs.foldl
    (fun st p => (GigNovaOrchestrator.submit_deliverable p.1 p.2 st).2) s

/-! Concrete fixtures for scenario runs (used by witnesses and
counterexamples). -/

/-- A job posting with the spec's scenario budget range (800, 1000). -/
def fixturePost : JobPost :=
  { title := "t", description := "d", skills := ["s"], budget_min := 800,
    budget_max := 1000, deadline_days := 7, client_id := "c1" }

/-- A search response with one candidate above the confidence
threshold (the score is written with `mkRat` so that the run is
kernel-computable). -/
def fixtureSearch : SearchResponse :=
  { results := [{ score := mkRat 9 10, metadata_freelancer_id := some "f1" }] }

/-- A similarity oracle that approves the artifact `"good"` and rejects
everything else against the threshold 0.7. -/
def fixtureSim : String → String → ℚ :=
  fun _ text => if text = "good" then mkRat 9 10 else mkRat 1 5

/-- The source's default `AgentConfig` values, written with `mkRat` so
that the concrete runs are kernel-computable. -/
def fixtureConfig : AgentConfig :=
  { confidence_threshold := mkRat 17 20, negotiation_rounds := 5,
    qa_similarity_threshold := mkRat 7 10, learning_rate := mkRat 1 100,
    memory_window := 100 }

/-- Scenario: post the fixture job (one match above threshold, no stored
freelancer profile) into an otherwise empty orchestrator state. -/
def fixtureRun1 : PostOutcome × OrchState :=
  GigNovaOrchestrator.process_job_posting fixturePost fixtureSearch
    { cfg := fixtureConfig }

/-- A ledger state whose only escrow has already been released. -/
def releasedState : MgrState :=
  { escrows := [("0xe",
      { client_id := "c", freelancer_id := "f", amount := 100, deadline := 5,
        status := .released, tx_hash := "h" })] }

/-- A ledger state whose only escrow is still active. -/
def activeState : MgrState :=
  { escrows := [("0xe",
      { client_id := "c", freelancer_id := "f", amount := 100, deadline := 5,
        status := .active, tx_hash := "h" })] }

/-- A `job_data` dict as the orchestrator builds it. -/
def fixtureJobData : EscrowJobData :=
  { job_id := "j1", client := "c", freelancer := "f", amount := 50 }

/-! Theorems. -/

/-- `List.lookup` after an in-place update of the entry keyed `k`. -/
theorem lookup_map_ite {β : Type} (k : String) (g : β → β) :
    ∀ l : List (String × β),
      (l.map fun p => if p.1 = k then (p.1, g p.2) else p).lookup k =
        (l.lookup k).map g
  | [] => rfl
  | (a, b) :: tl => by
    rcases eq_or_ne a k with h | h
    · subst h
      simp [List.lookup_cons_self, lookup_map_ite a g tl]
    · have hk : (k == a) = false := beq_eq_false_iff_ne.mpr (Ne.symm h)
      simp [List.lookup_cons, h, hk, lookup_map_ite k g tl]

/-- One negotiation round keeps the pair ordered and inside the initial
bracket. -/
theorem negotiationStep_bounds (o a : ℚ) (h : o ≤ a) :
    o ≤ (negotiationStep o a).1 ∧
      (negotiationStep o a).1 ≤ (negotiationStep o a).2 ∧
      (negotiationStep o a).2 ≤ a := by
  refine ⟨?_, ?_, ?_⟩ <;> simp only [negotiationStep] <;> nlinarith

/-- The negotiation loop keeps offer and ask ordered and inside the
initial bracket. -/
theorem negotiationLoop_bounds :
    ∀ (fuel : Nat) (o a : ℚ), o ≤ a →
      o ≤ (negotiationLoop o a fuel).1 ∧
        (negotiationLoop o a fuel).1 ≤ (negotiationLoop o a fuel).2.1 ∧
        (negotiationLoop o a fuel).2.1 ≤ a := by
  intro fuel
  induction fuel with
  | zero => intro o a h; exact ⟨le_refl o, h, le_refl a⟩
  | succ n ih =>
    intro o a h
    rw [negotiationLoop]
    by_cases hc : |o - a| / a > 0.15
    · simp only [hc, if_true]
      obtain ⟨h1, h2, h3⟩ := negotiationStep_bounds o a h
      obtain ⟨g1, g2, g3⟩ := ih (negotiationStep o a).1 (negotiationStep o a).2 h2
      exact ⟨le_trans h1 g1, g2, le_trans g3 h3⟩
    · simp only [hc, if_false]
      exact ⟨le_refl o, h, le_refl a⟩

/-- When the loop ends with the relative gap still open, every available
round was spent. -/
theorem negotiationLoop_rounds :
    ∀ (fuel : Nat) (o a : ℚ),
      0.15 < |(negotiationLoop o a fuel).1 - (negotiationLoop o a fuel).2.1| /
        (negotiationLoop o a fuel).2.1 →
      (negotiationLoop o a fuel).2.2 = fuel := by
  intro fuel
  induction fuel with
  | zero => intro o a _; rfl
  | succ n ih =>
    intro o a hgap
    rw [negotiationLoop] at hgap ⊢
    by_cases hc : |o - a| / a > 0.15
    · simp only [hc, if_true] at hgap ⊢
      rw [ih (negotiationStep o a).1 (negotiationStep o a).2 hgap]
    · simp only [hc, if_false] at hgap ⊢

/-- C4: for budgets `(min, max)` and an ask strictly above `max` (both
positive), `negotiate` either succeeds with an agreed rate inside
`[max, ask]` or fails with no agreed rate after exactly
`config.negotiation_rounds` rounds; an agreed rate never leaves that
interval. -/
theorem negotiate_bracket (cfg : AgentConfig) (bmin bmax ask : ℚ)
    (hmax : 0 < bmax) (hask : 0 < ask) (h : bmax < ask) :
    ((NegotiationAgent.negotiate cfg (bmin, bmax) ask).success = true ∧
      ∃ rate,
        (NegotiationAgent.negotiate cfg (bmin, bmax) ask).agreed_rate =
          some rate ∧ bmax ≤ rate ∧ rate ≤ ask) ∨
    ((NegotiationAgent.negotiate cfg (bmin, bmax) ask).success = false ∧
      (NegotiationAgent.negotiate cfg (bmin, bmax) ask).agreed_rate = none ∧
      (NegotiationAgent.negotiate cfg (bmin, bmax) ask).rounds =
        cfg.negotiation_rounds) := by
  have hnot : ¬(ask ≤ (bmin, bmax).2) := not_le.mpr h
  simp only [NegotiationAgent.negotiate, hnot, if_false]
  obtain ⟨b1, b2, b3⟩ :=
    negotiationLoop_bounds cfg.negotiation_rounds bmax ask h.le
  by_cases hg :
      |(negotiationLoop bmax ask cfg.negotiation_rounds).1 -
        (negotiationLoop bmax ask cfg.negotiation_rounds).2.1| /
        (negotiationLoop bmax ask cfg.negotiation_rounds).2.1 ≤ 0.15
  · rw [if_pos hg]
    exact Or.inl ⟨rfl, _, rfl, by linarith, by linarith⟩
  · rw [if_neg hg]
    exact Or.inr ⟨rfl, rfl,
      negotiationLoop_rounds cfg.negotiation_rounds bmax ask (not_le.mp hg)⟩

/-- C4 witness: the spec scenario budget `(800, 1000)` against ask `1100`
(positive, ask above max), instantiating `negotiate_bracket`. -/
theorem negotiate_bracket_witness :
    ((NegotiationAgent.negotiate {} ((800 : ℚ), (1000 : ℚ)) 1100).success = true ∧
      ∃ rate,
        (NegotiationAgent.negotiate {} ((800 : ℚ), (1000 : ℚ)) 1100).agreed_rate =
          some rate ∧ (1000 : ℚ) ≤ rate ∧ rate ≤ 1100) ∨
    ((NegotiationAgent.negotiate {} ((800 : ℚ), (1000 : ℚ)) 1100).success = false ∧
      (NegotiationAgent.negotiate {} ((800 : ℚ), (1000 : ℚ)) 1100).agreed_rate = none ∧
      (NegotiationAgent.negotiate {} ((800 : ℚ), (1000 : ℚ)) 1100).rounds =
        ({} : AgentConfig).negotiation_rounds) :=
  negotiate_bracket {} 800 1000 1100 (by norm_num) (by norm_num) (by norm_num)

/-- C5: the claimed verdict is never produced.  Even on a perfectly
retrievable deliverable whose similarity (9/10) is above the threshold
(7/10), `validate_deliverable` raises `ValidationError` — every
`QAResult(...)` call in agents/qa.py passes `deliverable_id=` and omits
the required `deliverable_hash` — so the call yields an exception, not a
result whose `passed` flag could satisfy the claimed equivalence. -/
theorem validate_deliverable_never_returns :
    fixtureConfig.qa_similarity_threshold ≤ fixtureSim "t d" "good" ∧
      QAAgent.validate_deliverable fixtureConfig fixtureSim
          [("art-good", "good")] "job-0" "t d" "art-good" =
        Except.error "ValidationError: Field required" :=
  ⟨by decide, rfl⟩

/-- C8: on the missing-deliverable path the code raises instead of
returning the failed result: the `QAResult` construction at qa.py
line 107 raises `ValidationError` (missing required `deliverable_hash`),
the handler's own construction at line 142 raises the same way, and that
exception propagates to the caller. -/
theorem validate_missing_deliverable_raises :
    QAAgent.validate_deliverable fixtureConfig fixtureSim [] "job-0" "t d"
        "missing" = Except.error "ValidationError: Field required" :=
  rfl

/-- C9: the budget_max substitution never happens.  With a best match
stored above the threshold and an empty freelancer registry,
`process_job_posting` raises `TypeError` at orchestrator_mcp.py line 86
(subscripting the pydantic `JobMatch`) before the rate fallback at line
99 is ever evaluated: the call returns the `error` dict and the job is
left `Posted`, so no negotiation — let alone an immediate success at
`budget_max` — ever takes place. -/
theorem process_job_posting_error_before_negotiation :
    fixtureRun1.1.status = "error" ∧
      statusAt fixtureRun1.2 "job-0" = some JobStatus.posted :=
  ⟨rfl, rfl⟩

/-- C10: every match produced by `find_matches` meets the confidence
threshold and originates from a search result carrying a `freelancer_id`;
results without a `freelancer_id` are dropped even when their score meets
the threshold (filtering them away first changes nothing); a search error
yields `[]` instead of an exception. -/
theorem find_matches_sound (cfg : AgentConfig) (resp : SearchResponse) :
    (∀ e, resp.error = some e → MatchingAgent.find_matches cfg resp = []) ∧
    (∀ m, m ∈ MatchingAgent.find_matches cfg resp →
      cfg.confidence_threshold ≤ m.confidence_score ∧
      ∃ r, r ∈ resp.results ∧
        r.metadata_freelancer_id = some m.freelancer_id ∧
        r.score = m.confidence_score) ∧
    MatchingAgent.find_matches cfg resp =
      MatchingAgent.find_matches cfg
        { resp with
            results := resp.results.filter (·.metadata_freelancer_id.isSome) } := by
  refine ⟨?_, ?_, ?_⟩
  · intro e he
    simp [MatchingAgent.find_matches, he]
  · intro m hm
    cases herr : resp.error with
    | some e => simp [MatchingAgent.find_matches, herr] at hm
    | none =>
      simp only [MatchingAgent.find_matches, herr] at hm
      obtain ⟨r, hr, hmk⟩ := List.mem_filterMap.mp hm
      rcases hid : r.metadata_freelancer_id with _ | fid
      · simp [matchOfResult, hid] at hmk
      · by_cases hs : cfg.confidence_threshold ≤ r.score
        · simp only [matchOfResult, hid, hs, if_true, Option.some_inj] at hmk
          refine ⟨?_, r, hr, ?_, ?_⟩
          · rw [← hmk]; exact hs
          · rw [← hmk, hid]
          · rw [← hmk]
        · simp [matchOfResult, hid, hs] at hmk
  · cases herr : resp.error with
    | some e => simp [MatchingAgent.find_matches, herr]
    | none =>
      simp only [MatchingAgent.find_matches, herr]
      induction resp.results with
      | nil => rfl
      | cons hd tl ih =>
        rcases hid : hd.metadata_freelancer_id with _ | fid
        · simp [List.filterMap_cons, List.filter_cons, matchOfResult, hid, ih]
        · simp [List.filterMap_cons, List.filter_cons, matchOfResult, hid, ih]

/-- C10 witness: a search error at a concrete response (whose sole result
even meets the threshold) still yields the empty match list. -/
theorem find_matches_sound_witness :
    MatchingAgent.find_matches {}
      { error := some "timeout",
        results := [{ score := 0.9, metadata_freelancer_id := some "f1" }] } =
      [] :=
  (find_matches_sound {}
    { error := some "timeout",
      results := [{ score := 0.9, metadata_freelancer_id := some "f1" }] }).1
    "timeout" rfl

/-- The adjusted QA threshold stays inside [0.5, 0.95] when the old one
was inside. -/
theorem qaNewThreshold_bounds (q : ℚ) (fp fn : Nat)
    (h1 : 0.5 ≤ q) (h2 : q ≤ 0.95) :
    0.5 ≤ qaNewThreshold q fp fn ∧ qaNewThreshold q fp fn ≤ 0.95 := by
  rw [qaNewThreshold]
  split_ifs
  · exact ⟨le_min (by norm_num) (by linarith), min_le_left _ _⟩
  · exact ⟨le_max_left _ _, max_le (by norm_num) (by linarith)⟩
  · exact ⟨h1, h2⟩

/-- C6 counterexample: with an empty outcome window, the matching
threshold evolution step returns before logging anything (line 94 of
agents/matching.py), so while it indeed makes no change, it logs no
analytics event and returns no reason — contradicting "makes no change to
the threshold and reports the reason". -/
theorem evolve_threshold_silent_counterexample :
    MatchingAgent.evolve_threshold {} [] = ({}, [], none) ∧
      (MatchingAgent.evolve_threshold {} []).2.1 = [] ∧
      (MatchingAgent.evolve_threshold {} []).2.2 = none :=
  ⟨rfl, rfl, rfl⟩

/-- C6 (amended): one evolution step keeps each adaptive threshold inside
[0.5, 0.95] whenever it started inside; with insufficient samples (an
empty window) both steps make no change, and the QA step reports the
reason while the matching step reports nothing. -/
theorem evolve_within_bounds (cfg : AgentConfig)
    (outcomes : List MatchOutcome) (events : List QAEvent)
    (hm1 : 0.5 ≤ cfg.confidence_threshold)
    (hm2 : cfg.confidence_threshold ≤ 0.95)
    (hq1 : 0.5 ≤ cfg.qa_similarity_threshold)
    (hq2 : cfg.qa_similarity_threshold ≤ 0.95) :
    (0.5 ≤ (MatchingAgent.evolve_threshold cfg outcomes).1.confidence_threshold ∧
      (MatchingAgent.evolve_threshold cfg outcomes).1.confidence_threshold ≤ 0.95) ∧
    (0.5 ≤ (QAAgent.evolve cfg events).1.qa_similarity_threshold ∧
      (QAAgent.evolve cfg events).1.qa_similarity_threshold ≤ 0.95) ∧
    (outcomes = [] → MatchingAgent.evolve_threshold cfg outcomes = (cfg, [], none)) ∧
    (events = [] → QAAgent.evolve cfg events =
      (cfg, { evolved := false,
              reason := some "No QA validation data available for evolution" })) := by
  refine ⟨?_, ?_, ?_, ?_⟩
  · rw [MatchingAgent.evolve_threshold]
    split
    · exact ⟨hm1, hm2⟩
    · constructor
      · exact le_max_left _ _
      · exact max_le (by norm_num) (min_le_left _ _)
  · rw [QAAgent.evolve]
    split
    · exact ⟨hq1, hq2⟩
    · dsimp only
      split
      · exact qaNewThreshold_bounds cfg.qa_similarity_threshold _ _ hq1 hq2
      · exact ⟨hq1, hq2⟩
  · intro h; subst h; rfl
  · intro h; subst h; rfl

/-- C6 witness: the default configuration (thresholds 0.85 and 0.7, both
inside [0.5, 0.95]) with empty windows: no change and, for the QA step,
the reported reason. -/
theorem evolve_within_bounds_witness :
    (0.5 ≤ (MatchingAgent.evolve_threshold {} []).1.confidence_threshold ∧
      (MatchingAgent.evolve_threshold {} []).1.confidence_threshold ≤ 0.95) ∧
    (0.5 ≤ (QAAgent.evolve {} []).1.qa_similarity_threshold ∧
      (QAAgent.evolve {} []).1.qa_similarity_threshold ≤ 0.95) ∧
    (([] : List MatchOutcome) = [] →
      MatchingAgent.evolve_threshold {} [] = ({}, [], none)) ∧
    (([] : List QAEvent) = [] → QAAgent.evolve {} [] =
      ({}, { evolved := false,
             reason := some "No QA validation data available for evolution" })) :=
  evolve_within_bounds {} [] [] (by norm_num) (by norm_num) (by norm_num)
    (by norm_num)

/-- C7 counterexample: two `createEscrow` calls for the same job data do
not return the same reference — the second call generates a fresh
contract address and a second escrow record now exists. -/
theorem create_escrow_not_idempotent_counterexample :
    (PaymentAgent.create_escrow fixtureJobData
        (PaymentAgent.create_escrow fixtureJobData {}).2).1.contract_address ≠
      (PaymentAgent.create_escrow fixtureJobData {}).1.contract_address ∧
    (PaymentAgent.create_escrow fixtureJobData
        (PaymentAgent.create_escrow fixtureJobData {}).2).2.escrows.length = 2 := by
  refine ⟨?_, rfl⟩
  decide

/-- C7 (amended): `createEscrow` is not idempotent at the job level — every
call succeeds by appending a brand-new escrow record under a freshly drawn
contract address, so a repeated call for the same job adds a duplicate
record instead of returning the existing reference. -/
theorem create_escrow_always_fresh (jd : EscrowJobData) (s : MgrState) :
    (PaymentAgent.create_escrow jd s).1.success = true ∧
      (PaymentAgent.create_escrow jd s).1.contract_address =
        some (mkAddress s.nextId) ∧
      (PaymentAgent.create_escrow jd s).2.escrows.length =
        s.escrows.length + 1 ∧
      (PaymentAgent.create_escrow jd s).2.nextId = s.nextId + 1 := by
  refine ⟨rfl, rfl, ?_, rfl⟩
  simp [PaymentAgent.create_escrow, LocalBlockchainManager.create_escrow]

/-- `List.lookup` after `setReleased` at the released key. -/
theorem lookup_setReleased (k : String) (l : List (String × Escrow)) :
    (setReleased k l).lookup k =
      (l.lookup k).map fun esc => { esc with status := EscrowStatus.released } :=
  lookup_map_ite k
    ((fun esc => { esc with status := EscrowStatus.released }) : Escrow → Escrow) l

/-- A ledger-level release against a non-active (absent or already
released) escrow fails and leaves the ledger state untouched. -/
theorem mgr_release_stuck (key : Option String) (s : MgrState)
    (h : escrowStatusOf key s ≠ some .active) :
    (LocalBlockchainManager.release_payment key s).1.success = false ∧
      (LocalBlockchainManager.release_payment key s).2 = s := by
  rcases key with _ | k
  · exact ⟨rfl, rfl⟩
  · rw [LocalBlockchainManager.release_payment]
    rcases hl : s.escrows.lookup k with _ | esc
    · exact ⟨rfl, rfl⟩
    · have hs : esc.status ≠ .active := by
        intro hc
        exact h (by simp [escrowStatusOf, hl, hc])
      simp only [hs, ne_eq, not_false_eq_true, if_true]
      exact ⟨by trivial, by trivial⟩

/-- A ledger-level release against an active escrow succeeds and marks
that escrow released. -/
theorem mgr_release_active (k : String) (s : MgrState)
    (h : escrowStatusOf (some k) s = some .active) :
    (LocalBlockchainManager.release_payment (some k) s).1.success = true ∧
      escrowStatusOf (some k)
        (LocalBlockchainManager.release_payment (some k) s).2 =
        some .released := by
  rcases hl : s.escrows.lookup k with _ | esc
  · simp [escrowStatusOf, hl] at h
  · have hs : esc.status = .active := by
      simpa [escrowStatusOf, hl] using h
    rw [LocalBlockchainManager.release_payment]
    simp only [hl, hs, ne_eq, not_true_eq_false, if_false]
    refine ⟨by trivial, ?_⟩
    simp [escrowStatusOf, lookup_setReleased, hl]

/-- An agent-level release (`qa_passed = true`) against a non-active
escrow returns a failure and leaves the ledger state untouched. -/
theorem agent_release_stuck (job : String) (ca ei : Option String)
    (s : MgrState) (h : escrowStatusOf (pyOr ca ei) s ≠ some .active) :
    (PaymentAgent.release_payment job ca ei true s).1.success = false ∧
      (PaymentAgent.release_payment job ca ei true s).2.1 = s := by
  obtain ⟨h1, h2⟩ := mgr_release_stuck (pyOr ca ei) s h
  rw [PaymentAgent.release_payment]
  simp only [Bool.not_true, not_true_eq_false, if_false, h1, Bool.false_eq_true,
    if_false, h2]
  exact ⟨by trivial, by trivial⟩

/-- Once the addressed escrow is not active, any number of repeated
agent-level releases produce zero successful releases. -/
theorem releaseRepeat_stuck (job : String) (ca ei : Option String) :
    ∀ (n : Nat) (s : MgrState),
      escrowStatusOf (pyOr ca ei) s ≠ some .active →
      (releaseRepeat job ca ei n s).1 = 0 ∧
        (releaseRepeat job ca ei n s).2 = s
  | 0, s, _ => ⟨rfl, rfl⟩
  | n + 1, s, h => by
    obtain ⟨h1, h2⟩ := agent_release_stuck job ca ei s h
    obtain ⟨ih1, ih2⟩ := releaseRepeat_stuck job ca ei n
      (PaymentAgent.release_payment job ca ei true s).2.1 (by rw [h2]; exact h)
    rw [h2] at ih1 ih2
    rw [releaseRepeat]
    simp only [h1, Bool.false_eq_true, if_false, h2, ih1, ih2]
    exact ⟨by trivial, by trivial⟩

/-- C1: the ledger release is issued at most once per job.  Concretely:
once the escrow addressed by `contract_address or escrow_id` has status
`released`, every further `release_payment` invocation with
`qa_passed = true` returns a failure result and leaves the ledger state
unchanged; and any number of repeated invocations, from any starting
state, yields at most one successful release. -/
theorem release_at_most_once (job : String) (ca ei : Option String)
    (s : MgrState) :
    (escrowStatusOf (pyOr ca ei) s = some .released →
      (PaymentAgent.release_payment job ca ei true s).1.success = false ∧
        (PaymentAgent.release_payment job ca ei true s).2.1 = s) ∧
    (∀ n, (releaseRepeat job ca ei n s).1 ≤ 1) := by
  constructor
  · intro hrel
    exact agent_release_stuck job ca ei s (by rw [hrel]; simp)
  · intro n
    by_cases hact : escrowStatusOf (pyOr ca ei) s = some .active
    · cases n with
      | zero => exact Nat.zero_le 1
      | succ m =>
        rcases hk : pyOr ca ei with _ | k
        · rw [hk] at hact
          simp [escrowStatusOf] at hact
        · rw [hk] at hact
          obtain ⟨hs1, hs2⟩ := mgr_release_active k s hact
          rw [releaseRepeat]
          have hunf :
              (PaymentAgent.release_payment job ca ei true s).1.success = true ∧
              (PaymentAgent.release_payment job ca ei true s).2.1 =
                (LocalBlockchainManager.release_payment (some k) s).2 := by
            rw [PaymentAgent.release_payment]
            simp only [Bool.not_true, not_true_eq_false, if_false, hk, hs1,
              if_true]
            exact ⟨by trivial, by trivial⟩
          obtain ⟨hr1, hr2⟩ := hunf
          have hstuck := releaseRepeat_stuck job ca ei m
            (PaymentAgent.release_payment job ca ei true s).2.1
            (by rw [hr2, hk, hs2]; simp)
          simp only [hr1, if_true, hstuck.1]
          exact Nat.le_refl 1
    · have := releaseRepeat_stuck job ca ei n s hact
      rw [this.1]
      exact Nat.zero_le 1

/-- C1 witness: against the fixture ledger whose escrow is already
released, a `qa_passed = true` release fails and changes nothing. -/
theorem release_at_most_once_witness :
    (PaymentAgent.release_payment "j" (some "0xe") none true
        releasedState).1.success = false ∧
      (PaymentAgent.release_payment "j" (some "0xe") none true
        releasedState).2.1 = releasedState :=
  (release_at_most_once "j" (some "0xe") none releasedState).1 rfl

/-- C2 counterexample: with the addressed escrow already released (so the
"status is Active" precondition is violated) and `qa_passed = true`, the
agent still invokes the ledger collaborator (third result component), and
the returned message is the failure message, not the "held" one — the
operation is not the claimed ledger-free "held" no-op. -/
theorem release_precondition_counterexample :
    escrowStatusOf (pyOr (some "0xe") none) releasedState ≠
        some EscrowStatus.active ∧
      (PaymentAgent.release_payment "j" (some "0xe") none true
        releasedState).2.2 = true ∧
      (PaymentAgent.release_payment "j" (some "0xe") none true
        releasedState).1.message =
        "Payment release failed: Escrow 0xe is not active" ∧
      (PaymentAgent.release_payment "j" (some "0xe") none true
        releasedState).1.message ≠ "Payment held due to QA failure" := by
  refine ⟨by decide, rfl, rfl, by decide⟩

/-- C2 (amended): a failed-QA release is a ledger-free no-op returning the
"held" result; a release whose addressed escrow is not active does invoke
the ledger collaborator, but that call performs no release — it fails and
leaves the ledger state unchanged. -/
theorem release_precondition_behaviour (job : String)
    (ca ei : Option String) (s : MgrState) :
    (PaymentAgent.release_payment job ca ei false s =
      ({ success := false, message := "Payment held due to QA failure",
         transaction_hash := none }, s, false)) ∧
    (escrowStatusOf (pyOr ca ei) s ≠ some .active →
      (PaymentAgent.release_payment job ca ei true s).2.2 = true ∧
        (PaymentAgent.release_payment job ca ei true s).1.success = false ∧
        (PaymentAgent.release_payment job ca ei true s).2.1 = s) := by
  constructor
  · rfl
  · intro h
    obtain ⟨h1, h2⟩ := mgr_release_stuck (pyOr ca ei) s h
    rw [PaymentAgent.release_payment]
    simp only [Bool.not_true, not_true_eq_false, if_false, h1,
      Bool.false_eq_true, if_false]
    exact ⟨by trivial, by trivial, h2⟩

/-- C2 amended witness: the fixture released-escrow state. -/
theorem release_precondition_behaviour_witness :
    (PaymentAgent.release_payment "j" (some "0xe") none true
        releasedState).2.2 = true ∧
      (PaymentAgent.release_payment "j" (some "0xe") none true
        releasedState).1.success = false ∧
      (PaymentAgent.release_payment "j" (some "0xe") none true
        releasedState).2.1 = releasedState :=
  (release_precondition_behaviour "j" (some "0xe") none releasedState).2
    (by decide)

/-- `List.lookup` skips a cons cell with a different key. -/
theorem lookup_cons_ne {β : Type} (k a : String) (v : β)
    (l : List (String × β)) (h : k ≠ a) :
    ((a, v) :: l).lookup k = l.lookup k := by
  have hk : (k == a) = false := beq_eq_false_iff_ne.mpr h
  simp [List.lookup_cons, hk]

/-- `submit_deliverable` never changes the orchestrator state: both its
reachable paths (unknown job id, `AttributeError` at line 207) return
before touching it. -/
theorem submit_deliverable_state_id (job_id dat : String) (s : OrchState) :
    (GigNovaOrchestrator.submit_deliverable job_id dat s).2 = s := by
  rw [GigNovaOrchestrator.submit_deliverable]
  cases hl : s.jobs.lookup job_id <;> simp [hl]

/-- Any sequence of `submit_deliverable` calls leaves the orchestrator
state unchanged. -/
theorem submitSequence_id :
    ∀ (subs : List (String × String)) (s : OrchState),
      submitSequence subs s = s
  | [], _ => rfl
  | p :: rest, s => by
    show submitSequence rest
      (GigNovaOrchestrator.submit_deliverable p.1 p.2 s).2 = s
    rw [submit_deliverable_state_id]
    exact submitSequence_id rest s

/-- C3: along any orchestrator run — one `process_job_posting` followed by
any number of `submit_deliverable` calls — a job's recorded status never
moves backward and never skips a forward stage.  The invariant holds
degenerately: the posting pipeline always stops with the job still
`Posted` (with any match, the `TypeError` at orchestrator_mcp.py line 86
diverts to the error return), `submit_deliverable` never changes the
state at all (`AttributeError` at line 207), existing jobs are untouched,
and so no recorded status ever changes after the initial `Posted`. -/
theorem orchestrator_status_never_regresses (post : JobPost)
    (search : SearchResponse) (s : OrchState)
    (subs : List (String × String)) :
    submitSequence subs
        (GigNovaOrchestrator.process_job_posting post search s).2 =
      (GigNovaOrchestrator.process_job_posting post search s).2 ∧
    statusAt (GigNovaOrchestrator.process_job_posting post search s).2
        (GigNovaOrchestrator.process_job_posting post search s).1.job_id =
      some JobStatus.posted ∧
    (∀ j, j ≠ (GigNovaOrchestrator.process_job_posting post search s).1.job_id →
      statusAt (GigNovaOrchestrator.process_job_posting post search s).2 j =
        statusAt s j) ∧
    (∀ j st st',
      statusAt (GigNovaOrchestrator.process_job_posting post search s).2 j =
        some st →
      statusAt (submitSequence subs
          (GigNovaOrchestrator.process_job_posting post search s).2) j =
        some st' →
      statusRank st ≤ statusRank st') := by
  have hid : (GigNovaOrchestrator.process_job_posting post search s).1.job_id =
      mkJobId s.nextJobId := by
    rw [GigNovaOrchestrator.process_job_posting]
    cases MatchingAgent.find_matches s.cfg search <;> rfl
  have hstate : (GigNovaOrchestrator.process_job_posting post search s).2 =
      { s with
          jobs := (mkJobId s.nextJobId,
            { post := post, status := JobStatus.posted }) :: s.jobs,
          nextJobId := s.nextJobId + 1 } := by
    rw [GigNovaOrchestrator.process_job_posting]
    cases MatchingAgent.find_matches s.cfg search <;> rfl
  refine ⟨submitSequence_id subs _, ?_, ?_, ?_⟩
  · rw [hstate, hid]
    simp [statusAt, List.lookup_cons_self]
  · intro j hj
    rw [hid] at hj
    rw [hstate]
    simp [statusAt, lookup_cons_ne j (mkJobId s.nextJobId) _ _ hj]
  · intro j st st' hst hst'
    rw [submitSequence_id subs _] at hst'
    rw [hst] at hst'
    cases hst'
    exact Nat.le_refl _

/-- C3 witness: the fixture run — the posted job is recorded `Posted`. -/
theorem orchestrator_status_never_regresses_witness :
    statusAt fixtureRun1.2 fixtureRun1.1.job_id = some JobStatus.posted :=
  (orchestrator_status_never_regresses fixturePost fixtureSearch
    { cfg := fixtureConfig } [("job-0", "good")]).2.1

end GigNova
